import Mathlib

/-!
# Verification of the zolar-backend anomaly-detection and analytics core

Shallow embedding of the anomaly-detection engine
(`src/application/anomalies.ts`, canonical version: night boundary 19:00,
150-day lookback, five algorithms) and of the analytics engine
(`src/application/analytics.ts`) of the zolar-backend repository.

Conventions of the embedding:
* JS `number` values are modelled as `ℚ` (the code performs no float-specific
  operation on the paths verified here); `Math.round` is `jsRound`
  (round half toward +∞, which is JS semantics).
* JS `Date` values are modelled as their epoch-millisecond value (`ℤ`);
  `getUTCHours` and the ISO-date bucket key are derived by floor
  division, exactly as proleptic-UTC epoch arithmetic dictates.
* Mongo store reads are the function arguments: each detector receives the
  list of records that its query (150-day window + sort) returns.  A read
  that throws is an `Except.error` argument; the `try/catch` of the source
  is the `.error → []` branch.
* Free-text fields (`description`, `threshold`) are not modelled; every
  numeric / structural field of the documents is.
-/

namespace Zolar

/-- JS `Math.round`: round half toward positive infinity. -/
def jsRound (q : ℚ) : ℤ := ⌊q + 1/2⌋

/-- `Math.round(x * 100) / 100` — round to 2 decimal places. -/
def round2 (q : ℚ) : ℚ := (jsRound (q * 100) : ℚ) / 100

/-- `Math.round(x * 10) / 10` — round to 1 decimal place. -/
def round1 (q : ℚ) : ℚ := (jsRound (q * 10) : ℚ) / 10

/-- `Date.prototype.getUTCHours` on an epoch-millisecond value. -/
def getUTCHours (t : ℤ) : ℤ := (t.fdiv 3600000) % 24

/-- The UTC calendar-day bucket key (`toISOString().split('T')[0]`),
represented as the day index since the epoch. -/
def dateKey (t : ℤ) : ℤ := t.fdiv 86400000

/-- JS `x || d` for an optional numeric `x`: `d` when `x` is
`null`/`undefined` or `0` (zero is falsy). -/
def jsOrNum (x : Option ℚ) (d : ℚ) : ℚ :=
  match x with
  | some v => if v = 0 then d else v
  | none => d

/-- One energy-generation record as the detection queries project it
(`DetectionRecord` in the source). -/
structure DetectionRecord where
  recId : String
  timestamp : ℤ
  energyGenerated : ℚ
  intervalHours : Option ℚ := none
  weatherCondition : Option String := none
  cloudCover : Option ℚ := none
deriving DecidableEq

/-- The closed set of anomaly types of the canonical detector. -/
inductive AnomalyType where
  | NIGHTTIME_GENERATION
  | ZERO_GENERATION_CLEAR_SKY
  | ENERGY_EXCEEDING_THRESHOLD
  | HIGH_GENERATION_BAD_WEATHER
  | LOW_GENERATION_CLEAR_WEATHER
  | SUDDEN_PRODUCTION_DROP
  | ERRATIC_OUTPUT
  | FROZEN_GENERATION
deriving DecidableEq

inductive AnomalySeverity where
  | CRITICAL
  | WARNING
  | INFO
deriving DecidableEq

/-- Numeric metadata of a detected anomaly (the free-text `threshold`
string is not modelled). -/
structure AnomalyMetadata where
  expectedValue : Option ℚ := none
  actualValue : Option ℚ := none
  deviation : Option ℤ := none
deriving DecidableEq

/-- `DetectedAnomaly` of the source (the free-text `description` is not
modelled; `affectedPeriod` is flattened into `periodStart`/`periodEnd`). -/
structure DetectedAnomaly where
  solarUnitId : String
  type : AnomalyType
  severity : AnomalySeverity
  periodStart : ℤ
  periodEnd : Option ℤ := none
  energyRecordIds : List String
  metadata : AnomalyMetadata
deriving DecidableEq

/-- Algorithm 1, `AnomalyDetector.detectNighttimeGeneration`, on the list of
records its query returns (150-day window, sorted newest first).  Night
hours are `hour ≥ 19 || hour < 6`; more than 10 Wh at night is CRITICAL. -/
def detectNighttimeGeneration (uid : String) : List DetectionRecord → List DetectedAnomaly
  | [] => []
  | r :: rest =>
    (if (19 ≤ getUTCHours r.timestamp ∨ getUTCHours r.timestamp < 6) ∧ 10 < r.energyGenerated then
      [{ solarUnitId := uid
         type := .NIGHTTIME_GENERATION
         severity := .CRITICAL
         periodStart := r.timestamp
         periodEnd := some r.timestamp
         energyRecordIds := [r.recId]
         metadata := { expectedValue := some 0
                       actualValue := some r.energyGenerated
                       deviation := some 100 } }]
     else []) ++ detectNighttimeGeneration uid rest

/-- Algorithm 2, `AnomalyDetector.detectZeroGenerationClearSky`: 0 Wh during
peak hours (`10 ≤ hour ≤ 14`) is CRITICAL. -/
def detectZeroGenerationClearSky (uid : String) : List DetectionRecord → List DetectedAnomaly
  | [] => []
  | r :: rest =>
    (if (10 ≤ getUTCHours r.timestamp ∧ getUTCHours r.timestamp ≤ 14) ∧ r.energyGenerated = 0 then
      [{ solarUnitId := uid
         type := .ZERO_GENERATION_CLEAR_SKY
         severity := .CRITICAL
         periodStart := r.timestamp
         periodEnd := some r.timestamp
         energyRecordIds := [r.recId]
         metadata := { expectedValue := some 200
                       actualValue := some 0
                       deviation := some 100 } }]
     else []) ++ detectZeroGenerationClearSky uid rest

/-- Algorithm 3, `AnomalyDetector.detectEnergyExceedingThreshold`:
`maxEnergy = capacity × (intervalHours || 2)`; exceeding it is CRITICAL with
`deviation = round(((actual − max) / max) × 100)`. -/
def detectEnergyExceedingThreshold (uid : String) (capacity : ℚ) :
    List DetectionRecord → List DetectedAnomaly
  | [] => []
  | r :: rest =>
    let intervalHours := jsOrNum r.intervalHours 2
    let maxEnergy := capacity * intervalHours
    (if maxEnergy < r.energyGenerated then
      [{ solarUnitId := uid
         type := .ENERGY_EXCEEDING_THRESHOLD
         severity := .CRITICAL
         periodStart := r.timestamp
         periodEnd := some r.timestamp
         energyRecordIds := [r.recId]
         metadata := { expectedValue := some maxEnergy
                       actualValue := some r.energyGenerated
                       deviation := some (jsRound (((r.energyGenerated - maxEnergy) / maxEnergy) * 100)) } }]
     else []) ++ detectEnergyExceedingThreshold uid capacity rest

end Zolar

namespace Zolar

/-- The two per-record checks of Algorithm 4,
`AnomalyDetector.detectWeatherPerformanceMismatch`: restricted to daytime
(`6 ≤ hour ≤ 18`); case 1 fires on rain, or overcast with cloud cover > 80 %,
and energy > 500 Wh; case 2 fires on clear sky (cloud < 20 %) during peak
hours with energy < 200 Wh.  A missing `cloudCover` is `|| 0`. -/
def weatherMismatchChecks (uid : String) (r : DetectionRecord) : List DetectedAnomaly :=
  if 6 ≤ getUTCHours r.timestamp ∧ getUTCHours r.timestamp ≤ 18 then
    (if (r.weatherCondition = some "rain" ∨
          (r.weatherCondition = some "overcast" ∧ 80 < r.cloudCover.getD 0)) ∧
        500 < r.energyGenerated then
      [{ solarUnitId := uid
         type := .HIGH_GENERATION_BAD_WEATHER
         severity := .WARNING
         periodStart := r.timestamp
         periodEnd := some r.timestamp
         energyRecordIds := [r.recId]
         metadata := { expectedValue := some 200
                       actualValue := some r.energyGenerated
                       deviation := some (jsRound (((r.energyGenerated - 200) / 200) * 100)) } }]
     else []) ++
    (if r.weatherCondition = some "clear" ∧ r.cloudCover.getD 0 < 20 ∧
        (10 ≤ getUTCHours r.timestamp ∧ getUTCHours r.timestamp ≤ 14) ∧
        r.energyGenerated < 200 then
      [{ solarUnitId := uid
         type := .LOW_GENERATION_CLEAR_WEATHER
         severity := .WARNING
         periodStart := r.timestamp
         periodEnd := some r.timestamp
         energyRecordIds := [r.recId]
         metadata := { expectedValue := some 400
                       actualValue := some r.energyGenerated
                       deviation := some (jsRound (((r.energyGenerated - 400) / 400) * 100)) } }]
     else [])
  else []

/-- Algorithm 4 over the record list its query returns (the query keeps only
records whose `weatherCondition` exists). -/
def detectWeatherPerformanceMismatch (uid : String) (rs : List DetectionRecord) :
    List DetectedAnomaly :=
  (rs.filter (fun r => r.weatherCondition.isSome)).flatMap (weatherMismatchChecks uid)

end Zolar

namespace Zolar

/-! ## Claim theorems: per-record detectors -/

/-- C3.  One NIGHTTIME_GENERATION finding per night reading above 10 Wh —
`detectNighttimeGeneration` is exactly the map, over the readings whose UTC
hour is ≥ 19 or < 6 and whose energy exceeds 10 Wh, of the CRITICAL finding
whose affected period is the reading's timestamp (start = end), whose
expected value is 0, actual value the reading's energy, deviation 100, and
whose sole energy-record reference is that reading; no other reading
contributes a finding. -/
theorem nighttime_generation_characterization (uid : String) (rs : List DetectionRecord) :
    detectNighttimeGeneration uid rs =
      (rs.filter (fun r =>
          decide ((19 ≤ getUTCHours r.timestamp ∨ getUTCHours r.timestamp < 6) ∧
            10 < r.energyGenerated))).map
        (fun r =>
          { solarUnitId := uid
            type := .NIGHTTIME_GENERATION
            severity := .CRITICAL
            periodStart := r.timestamp
            periodEnd := some r.timestamp
            energyRecordIds := [r.recId]
            metadata := { expectedValue := some 0
                          actualValue := some r.energyGenerated
                          deviation := some 100 } }) := by
  induction rs with
  | nil => rfl
  | cons r rest ih =>
    by_cases h : (19 ≤ getUTCHours r.timestamp ∨ getUTCHours r.timestamp < 6) ∧
        10 < r.energyGenerated
    · simp [detectNighttimeGeneration, List.filter, h, ih]
    · simp [detectNighttimeGeneration, List.filter, h, ih]

end Zolar


namespace Zolar

/-- Reduction of Algorithm 4 on a single record whose weather condition is
present: the query filter keeps it and only the two per-record checks run. -/
lemma detectWeatherPerformanceMismatch_singleton (uid : String) (r : DetectionRecord)
    (h : r.weatherCondition.isSome) :
    detectWeatherPerformanceMismatch uid [r] = weatherMismatchChecks uid r := by
  simp [detectWeatherPerformanceMismatch, List.filter, h]

/-- C5.  `detectEnergyExceedingThreshold` emits, for exactly the readings
whose energy strictly exceeds `capacity × intervalHours` (intervalHours
defaulting to 2), one CRITICAL ENERGY_EXCEEDING_THRESHOLD finding with
expected = the maximum, actual = the measured energy and
deviation = round(((actual − max) / max) × 100); in particular capacity
1000 W, intervalHours 2 and a 2500 Wh reading at 12:00 UTC yield exactly one
finding with deviation 25. -/
theorem energy_exceeding_threshold_characterization :
    (∀ (uid : String) (capacity : ℚ) (rs : List DetectionRecord),
      detectEnergyExceedingThreshold uid capacity rs =
        (rs.filter (fun r =>
            decide (capacity * jsOrNum r.intervalHours 2 < r.energyGenerated))).map
          (fun r =>
            { solarUnitId := uid
              type := .ENERGY_EXCEEDING_THRESHOLD
              severity := .CRITICAL
              periodStart := r.timestamp
              periodEnd := some r.timestamp
              energyRecordIds := [r.recId]
              metadata :=
                { expectedValue := some (capacity * jsOrNum r.intervalHours 2)
                  actualValue := some r.energyGenerated
                  deviation := some (jsRound
                    (((r.energyGenerated - capacity * jsOrNum r.intervalHours 2) /
                        (capacity * jsOrNum r.intervalHours 2)) * 100)) } })) ∧
    detectEnergyExceedingThreshold "u" 1000
        [{ recId := "r1", timestamp := 43200000, energyGenerated := 2500,
           intervalHours := some 2 }] =
      [{ solarUnitId := "u"
         type := .ENERGY_EXCEEDING_THRESHOLD
         severity := .CRITICAL
         periodStart := 43200000
         periodEnd := some 43200000
         energyRecordIds := ["r1"]
         metadata := { expectedValue := some 2000
                       actualValue := some 2500
                       deviation := some 25 } }] := by
  have hgen : ∀ (uid : String) (capacity : ℚ) (rs : List DetectionRecord),
      detectEnergyExceedingThreshold uid capacity rs =
        (rs.filter (fun r =>
            decide (capacity * jsOrNum r.intervalHours 2 < r.energyGenerated))).map
          (fun r =>
            { solarUnitId := uid
              type := .ENERGY_EXCEEDING_THRESHOLD
              severity := .CRITICAL
              periodStart := r.timestamp
              periodEnd := some r.timestamp
              energyRecordIds := [r.recId]
              metadata :=
                { expectedValue := some (capacity * jsOrNum r.intervalHours 2)
                  actualValue := some r.energyGenerated
                  deviation := some (jsRound
                    (((r.energyGenerated - capacity * jsOrNum r.intervalHours 2) /
                        (capacity * jsOrNum r.intervalHours 2)) * 100)) } }) := by
    intro uid capacity rs
    induction rs with
    | nil => rfl
    | cons r rest ih =>
      by_cases h : capacity * jsOrNum r.intervalHours 2 < r.energyGenerated
      · simp [detectEnergyExceedingThreshold, List.filter, h, ih]
      · simp [detectEnergyExceedingThreshold, List.filter, h, ih]
  refine ⟨hgen, ?_⟩
  rw [hgen]
  simp only [List.filter, jsOrNum, jsRound]
  norm_num

end Zolar

namespace Zolar

/-- C10.  In `detectWeatherPerformanceMismatch` a reading with no
`cloudCover` field is treated as 0 % cloud cover: if its condition is
"clear", its UTC hour is in [10,14] and its energy is below 200 Wh it still
yields the LOW_GENERATION_CLEAR_WEATHER finding (and nothing else), while if
its condition is "overcast" it never yields a HIGH_GENERATION_BAD_WEATHER
finding whatever its energy — among such readings only condition "rain" can
produce one. -/
theorem weather_mismatch_missing_cloud_cover (uid : String) (r : DetectionRecord)
    (hcc : r.cloudCover = none) :
    ((r.weatherCondition = some "clear" ∧
        (10 ≤ getUTCHours r.timestamp ∧ getUTCHours r.timestamp ≤ 14) ∧
        r.energyGenerated < 200) →
      detectWeatherPerformanceMismatch uid [r] =
        [{ solarUnitId := uid
           type := .LOW_GENERATION_CLEAR_WEATHER
           severity := .WARNING
           periodStart := r.timestamp
           periodEnd := some r.timestamp
           energyRecordIds := [r.recId]
           metadata := { expectedValue := some 400
                         actualValue := some r.energyGenerated
                         deviation := some (jsRound
                           (((r.energyGenerated - 400) / 400) * 100)) } }]) ∧
    (r.weatherCondition = some "overcast" →
      ∀ f ∈ detectWeatherPerformanceMismatch uid [r],
        f.type ≠ .HIGH_GENERATION_BAD_WEATHER) ∧
    ((∃ f ∈ detectWeatherPerformanceMismatch uid [r],
        f.type = .HIGH_GENERATION_BAD_WEATHER) →
      r.weatherCondition = some "rain") := by
  refine ⟨?_, ?_, ?_⟩
  · rintro ⟨hclear, ⟨h10, h14⟩, henergy⟩
    have hs : r.weatherCondition.isSome := by rw [hclear]; rfl
    rw [detectWeatherPerformanceMismatch_singleton uid r hs]
    have hday : 6 ≤ getUTCHours r.timestamp ∧ getUTCHours r.timestamp ≤ 18 :=
      ⟨by omega, by omega⟩
    have hbadF : ¬ ((r.weatherCondition = some "rain" ∨
        (r.weatherCondition = some "overcast" ∧ 80 < r.cloudCover.getD 0)) ∧
        500 < r.energyGenerated) := by
      rintro ⟨_, h500⟩; linarith
    have hlowT : r.weatherCondition = some "clear" ∧ r.cloudCover.getD 0 < 20 ∧
        (10 ≤ getUTCHours r.timestamp ∧ getUTCHours r.timestamp ≤ 14) ∧
        r.energyGenerated < 200 :=
      ⟨hclear, by rw [hcc]; norm_num, ⟨h10, h14⟩, henergy⟩
    rw [weatherMismatchChecks, if_pos hday, if_neg hbadF, if_pos hlowT]
    rfl
  · intro hovercast f hf hty
    have hs : r.weatherCondition.isSome := by rw [hovercast]; rfl
    rw [detectWeatherPerformanceMismatch_singleton uid r hs] at hf
    have hbadF : ¬ ((r.weatherCondition = some "rain" ∨
        (r.weatherCondition = some "overcast" ∧ 80 < r.cloudCover.getD 0)) ∧
        500 < r.energyGenerated) := by
      rintro ⟨hc | ⟨_, h80⟩, _⟩
      · rw [hovercast] at hc
        exact absurd hc (by decide)
      · rw [hcc] at h80
        norm_num at h80
    rw [weatherMismatchChecks] at hf
    by_cases hday : 6 ≤ getUTCHours r.timestamp ∧ getUTCHours r.timestamp ≤ 18
    · rw [if_pos hday, if_neg hbadF] at hf
      by_cases hlow : r.weatherCondition = some "clear" ∧ r.cloudCover.getD 0 < 20 ∧
          (10 ≤ getUTCHours r.timestamp ∧ getUTCHours r.timestamp ≤ 14) ∧
          r.energyGenerated < 200
      · rw [if_pos hlow] at hf
        simp at hf
        rw [hf] at hty
        simp at hty
      · rw [if_neg hlow] at hf
        simp at hf
    · rw [if_neg hday] at hf
      simp at hf
  · rintro ⟨f, hf, hty⟩
    cases hwc : r.weatherCondition with
    | none =>
      rw [detectWeatherPerformanceMismatch] at hf
      simp [List.filter, hwc] at hf
    | some c =>
      have hs : r.weatherCondition.isSome := by rw [hwc]; rfl
      rw [detectWeatherPerformanceMismatch_singleton uid r hs] at hf
      rw [weatherMismatchChecks] at hf
      by_cases hday : 6 ≤ getUTCHours r.timestamp ∧ getUTCHours r.timestamp ≤ 18
      · rw [if_pos hday] at hf
        by_cases hbad : (r.weatherCondition = some "rain" ∨
            (r.weatherCondition = some "overcast" ∧ 80 < r.cloudCover.getD 0)) ∧
            500 < r.energyGenerated
        · rcases hbad.1 with hr | ⟨_, h80⟩
          · rw [← hwc]; exact hr
          · rw [hcc] at h80
            exact absurd h80 (by norm_num)
        · rw [if_neg hbad] at hf
          by_cases hlow : r.weatherCondition = some "clear" ∧ r.cloudCover.getD 0 < 20 ∧
              (10 ≤ getUTCHours r.timestamp ∧ getUTCHours r.timestamp ≤ 14) ∧
              r.energyGenerated < 200
          · rw [if_pos hlow] at hf
            simp at hf
            rw [hf] at hty
            simp at hty
          · rw [if_neg hlow] at hf
            simp at hf
      · rw [if_neg hday] at hf
        simp at hf

/-- Witness for C10: a concrete clear-sky peak-hour reading with missing
cloud cover and 100 Wh yields the LOW_GENERATION_CLEAR_WEATHER finding, and
a concrete overcast reading with missing cloud cover and 900 Wh yields no
HIGH_GENERATION_BAD_WEATHER finding. -/
theorem weather_mismatch_missing_cloud_cover_witness :
    detectWeatherPerformanceMismatch "u"
        [{ recId := "r1", timestamp := 43200000, energyGenerated := 100,
           weatherCondition := some "clear" }] =
      [{ solarUnitId := "u"
         type := .LOW_GENERATION_CLEAR_WEATHER
         severity := .WARNING
         periodStart := 43200000
         periodEnd := some 43200000
         energyRecordIds := ["r1"]
         metadata := { expectedValue := some 400
                       actualValue := some 100
                       deviation := some (-75) } }] ∧
    (∀ f ∈ detectWeatherPerformanceMismatch "u"
        [{ recId := "r2", timestamp := 43200000, energyGenerated := 900,
           weatherCondition := some "overcast" }],
      f.type ≠ .HIGH_GENERATION_BAD_WEATHER) := by
  constructor
  · have h := (weather_mismatch_missing_cloud_cover "u"
      { recId := "r1", timestamp := 43200000, energyGenerated := 100,
        weatherCondition := some "clear" } rfl).1
      ⟨rfl, ⟨by decide, by decide⟩, by norm_num⟩
    rw [h]
    simp only [jsRound]
    norm_num
  · exact (weather_mismatch_missing_cloud_cover "u"
      { recId := "r2", timestamp := 43200000, energyGenerated := 900,
        weatherCondition := some "overcast" } rfl).2.1 rfl

end Zolar

namespace Zolar

/-- `allNighttimeZeros` check of Algorithm 5: every record of the streak is
a nighttime (`hour ≥ 19 || hour < 6`) zero reading. -/
def allNighttimeZeros (seq : List DetectionRecord) : Bool :=
  seq.all fun r =>
    decide (19 ≤ getUTCHours r.timestamp ∨ getUTCHours r.timestamp < 6) &&
    decide (r.energyGenerated = 0)

/-- `AnomalyDetector.hasWeatherChanged`: more than one distinct (present)
weather condition or more than one distinct (present) cloud-cover value. -/
def hasWeatherChanged (records : List DetectionRecord) : Bool :=
  if records.length < 2 then false
  else
    decide (1 < ((records.filterMap (·.weatherCondition)).dedup).length) ||
    decide (1 < ((records.filterMap (·.cloudCover)).dedup).length)

/-- A streak qualifies as a FROZEN_GENERATION anomaly: length ≥ 4
(`MIN_FROZEN_COUNT`) and not entirely nighttime zeros. -/
def qualifiesFrozen (seq : List DetectionRecord) : Bool :=
  decide (4 ≤ seq.length) && !(allNighttimeZeros seq)

/-- The FROZEN_GENERATION finding emitted for a qualifying streak. -/
def frozenFinding (uid : String) (seq : List DetectionRecord) (value : ℚ) : DetectedAnomaly :=
  { solarUnitId := uid
    type := .FROZEN_GENERATION
    severity := .WARNING
    periodStart := ((seq.head?).map (·.timestamp)).getD 0
    periodEnd := some (((seq.getLast?).map (·.timestamp)).getD 0)
    energyRecordIds := seq.map (·.recId)
    metadata := { actualValue := some value
                  deviation := some (if hasWeatherChanged seq then 100 else 50) } }

/-- The scan loop of Algorithm 5, `AnomalyDetector.detectFrozenGeneration`:
`seq` is the running streak (`frozenSequence`), `prev` the streak's energy
value (`previousValue`).  On a value change or at scan end, a streak of
length ≥ 4 that is not entirely nighttime zeros is emitted. -/
def frozenGo (uid : String) :
    List DetectionRecord → List DetectionRecord → Option ℚ → List DetectedAnomaly
  | [], seq, prev =>
    if qualifiesFrozen seq && prev.isSome then [frozenFinding uid seq (prev.getD 0)] else []
  | r :: rest, seq, prev =>
    if prev = some r.energyGenerated then
      frozenGo uid rest (seq ++ [r]) prev
    else
      (if qualifiesFrozen seq then [frozenFinding uid seq (prev.getD 0)] else []) ++
      frozenGo uid rest [r] (some r.energyGenerated)

/-- Algorithm 5 on the list of records its query returns (150-day window,
sorted oldest first). -/
def detectFrozenGeneration (uid : String) (rs : List DetectionRecord) : List DetectedAnomaly :=
  frozenGo uid rs [] none

/-- Decomposition of a record list into its maximal runs of consecutive
records with identical energy value (accumulator-passing form; `seq` is the
pending run). -/
def runsGo : List DetectionRecord → List DetectionRecord → List (List DetectionRecord)
  | [], seq => if seq.isEmpty then [] else [seq]
  | r :: rest, seq =>
    match seq with
    | [] => runsGo rest [r]
    | s :: _ =>
      if s.energyGenerated = r.energyGenerated then runsGo rest (seq ++ [r])
      else seq :: runsGo rest [r]

/-- The maximal runs of consecutive identical energy values of a list. -/
def energyRuns (rs : List DetectionRecord) : List (List DetectionRecord) := runsGo rs []

/-- The common energy value of a run (0 for the empty run). -/
def runValue (g : List DetectionRecord) : ℚ := ((g.head?).map (·.energyGenerated)).getD 0

lemma frozenGo_eq_runsGo (uid : String) (rest : List DetectionRecord) :
    ∀ (seq : List DetectionRecord) (v : ℚ), seq ≠ [] →
      (∀ r ∈ seq, r.energyGenerated = v) →
      frozenGo uid rest seq (some v) =
        ((runsGo rest seq).filter qualifiesFrozen).map
          (fun g => frozenFinding uid g (runValue g)) := by
  induction rest with
  | nil =>
    intro seq v hne hall
    obtain ⟨s, tl, rfl⟩ : ∃ s tl, seq = s :: tl := by
      cases seq with
      | nil => exact absurd rfl hne
      | cons s tl => exact ⟨s, tl, rfl⟩
    have hrv : runValue (s :: tl) = v := by
      simp [runValue, hall s (by simp)]
    by_cases hq : qualifiesFrozen (s :: tl) = true
    · simp [frozenGo, runsGo, List.filter, hq, hrv]
    · simp [frozenGo, runsGo, List.filter, hq]
  | cons r rest ih =>
    intro seq v hne hall
    obtain ⟨s, tl, rfl⟩ : ∃ s tl, seq = s :: tl := by
      cases seq with
      | nil => exact absurd rfl hne
      | cons s tl => exact ⟨s, tl, rfl⟩
    have hsv : s.energyGenerated = v := hall s (by simp)
    have hrv : runValue (s :: tl) = v := by simp [runValue, hsv]
    by_cases hv : v = r.energyGenerated
    · have hcond : (some v = some r.energyGenerated) := by rw [hv]
      have hscond : s.energyGenerated = r.energyGenerated := by rw [hsv, hv]
      rw [frozenGo, if_pos hcond, runsGo]
      simp only [hscond, if_true]
      exact ih ((s :: tl) ++ [r]) v (by simp)
        (by
          intro x hx
          rcases List.mem_append.mp hx with hx | hx
          · exact hall x hx
          · simp at hx
            rw [hx, ← hv])
    · have hcond : ¬ (some v = some r.energyGenerated) := by
        intro h
        exact hv (Option.some.injEq _ _ ▸ h)
      have hscond : ¬ (s.energyGenerated = r.energyGenerated) := by
        rw [hsv]; exact hv
      rw [frozenGo, if_neg hcond, runsGo]
      simp only [hscond, if_false]
      rw [ih [r] r.energyGenerated (by simp) (by simp)]
      by_cases hq : qualifiesFrozen (s :: tl) = true
      · simp [List.filter, hq, hrv]
      · simp at hq
        simp [List.filter, hq]

end Zolar

namespace Zolar

/-- C4.  `detectFrozenGeneration` emits exactly one WARNING
FROZEN_GENERATION finding per maximal run of consecutive identical energy
values of length ≥ 4 that is not entirely nighttime zeros; the finding spans
the streak's first to last timestamp, references every streak reading, and
its deviation is 100 when the weather snapshot changed during the streak
(`hasWeatherChanged`) and 50 otherwise.  In particular a run of exactly 4
identical non-zero daytime values yields exactly one finding, a run of 3
identical values yields none, and an all-night all-zero streak (here of
length 6) yields none. -/
theorem frozen_generation_characterization :
    (∀ (uid : String) (g : List DetectionRecord) (v : ℚ),
      frozenFinding uid g v =
        { solarUnitId := uid
          type := .FROZEN_GENERATION
          severity := .WARNING
          periodStart := ((g.head?).map (·.timestamp)).getD 0
          periodEnd := some (((g.getLast?).map (·.timestamp)).getD 0)
          energyRecordIds := g.map (·.recId)
          metadata := { actualValue := some v
                        deviation := some (if hasWeatherChanged g then 100 else 50) } }) ∧
    (∀ (uid : String) (rs : List DetectionRecord),
      detectFrozenGeneration uid rs =
        ((energyRuns rs).filter qualifiesFrozen).map
          (fun g => frozenFinding uid g (runValue g))) ∧
    detectFrozenGeneration "u"
        [{ recId := "a", timestamp := 36000000, energyGenerated := 500 },
         { recId := "b", timestamp := 43200000, energyGenerated := 500 },
         { recId := "c", timestamp := 50400000, energyGenerated := 500 },
         { recId := "d", timestamp := 57600000, energyGenerated := 500 }] =
      [{ solarUnitId := "u"
         type := .FROZEN_GENERATION
         severity := .WARNING
         periodStart := 36000000
         periodEnd := some 57600000
         energyRecordIds := ["a", "b", "c", "d"]
         metadata := { actualValue := some 500, deviation := some 50 } }] ∧
    detectFrozenGeneration "u"
        [{ recId := "a", timestamp := 36000000, energyGenerated := 500 },
         { recId := "b", timestamp := 43200000, energyGenerated := 500 },
         { recId := "c", timestamp := 50400000, energyGenerated := 500 }] = [] ∧
    detectFrozenGeneration "u"
        [{ recId := "a", timestamp := 68400000, energyGenerated := 0 },
         { recId := "b", timestamp := 75600000, energyGenerated := 0 },
         { recId := "c", timestamp := 82800000, energyGenerated := 0 },
         { recId := "d", timestamp := 90000000, energyGenerated := 0 },
         { recId := "e", timestamp := 97200000, energyGenerated := 0 },
         { recId := "f", timestamp := 104400000, energyGenerated := 0 }] = [] := by
  refine ⟨fun uid g v => rfl, ?_, ?_, ?_, ?_⟩
  · intro uid rs
    cases rs with
    | nil => rfl
    | cons r rest =>
      have hstep : detectFrozenGeneration uid (r :: rest) =
          frozenGo uid rest [r] (some r.energyGenerated) := by
        rw [detectFrozenGeneration, frozenGo, if_neg (by simp)]
        simp [qualifiesFrozen]
      rw [hstep, frozenGo_eq_runsGo uid rest [r] r.energyGenerated (by simp) (by simp)]
      rfl
  · decide
  · decide
  · decide

end Zolar

namespace Zolar

/-- Lifecycle status of a persisted anomaly document (`anomalySchema.status`,
default `OPEN`). -/
inductive AnomalyStatus where
  | OPEN
  | ACKNOWLEDGED
  | RESOLVED
  | FALSE_POSITIVE
deriving DecidableEq

/-- A document of the Anomaly collection: the detected finding plus its
lifecycle status. -/
structure StoredAnomaly where
  doc : DetectedAnomaly
  status : AnomalyStatus
deriving DecidableEq

/-- The dedup query of `AnomalyDetector.saveAnomalies`:
`Anomaly.findOne({solarUnitId, type, "affectedPeriod.start",
status: {$in: ["OPEN","ACKNOWLEDGED"]}})` against the store. -/
def hasOpenMatch (store : List StoredAnomaly) (a : DetectedAnomaly) : Bool :=
  store.any fun e =>
    decide (e.doc.solarUnitId = a.solarUnitId) && decide (e.doc.type = a.type) &&
    decide (e.doc.periodStart = a.periodStart) &&
    (decide (e.status = .OPEN) || decide (e.status = .ACKNOWLEDGED))

/-- `AnomalyDetector.saveAnomalies` as a state transformer on the Anomaly
store: each finding with no open/acknowledged match on
(unit, type, period start) is inserted with status `OPEN` (the schema
default) and counted; matched findings are skipped. -/
def saveAnomalies : List DetectedAnomaly → List StoredAnomaly → ℕ × List StoredAnomaly
  | [], store => (0, store)
  | a :: rest, store =>
    if hasOpenMatch store a then
      saveAnomalies rest store
    else
      let res := saveAnomalies rest (store ++ [⟨a, .OPEN⟩])
      (res.1 + 1, res.2)

/-- `AnomalyDetector.detectAnomalies`: the five algorithms on the unit's
fetched window.  `fetch` is the window's records in ascending time order
(`.reverse` gives the newest-first order the per-record algorithms query);
a store read that throws is `.error` and each algorithm's `catch` yields
`[]`; `capacity` is `none` when `SolarUnit.findById` finds nothing, in which
case Algorithm 3 contributes nothing. -/
def detectAnomalies (uid : String) (capacity : Option ℚ)
    (fetch : Except String (List DetectionRecord)) : List DetectedAnomaly :=
  match fetch with
  | .error _ => []
  | .ok rs =>
    detectNighttimeGeneration uid rs.reverse ++
    detectZeroGenerationClearSky uid rs.reverse ++
    (match capacity with
     | none => []
     | some cap => detectEnergyExceedingThreshold uid cap rs.reverse) ++
    detectWeatherPerformanceMismatch uid rs.reverse ++
    detectFrozenGeneration uid rs

lemma hasOpenMatch_append (st ext : List StoredAnomaly) (a : DetectedAnomaly) :
    hasOpenMatch (st ++ ext) a = (hasOpenMatch st a || hasOpenMatch ext a) := by
  simp [hasOpenMatch, List.any_append]

lemma hasOpenMatch_inserted (st : List StoredAnomaly) (a : DetectedAnomaly) :
    hasOpenMatch (st ++ [⟨a, .OPEN⟩]) a = true := by
  simp [hasOpenMatch, List.any_append]

lemma saveAnomalies_store_grows (as : List DetectedAnomaly) :
    ∀ st : List StoredAnomaly, ∃ ext, (saveAnomalies as st).2 = st ++ ext := by
  induction as with
  | nil => intro st; exact ⟨[], by simp [saveAnomalies]⟩
  | cons a rest ih =>
    intro st
    by_cases h : hasOpenMatch st a = true
    · obtain ⟨ext, hext⟩ := ih st
      exact ⟨ext, by simp [saveAnomalies, h, hext]⟩
    · obtain ⟨ext, hext⟩ := ih (st ++ [⟨a, .OPEN⟩])
      refine ⟨⟨a, .OPEN⟩ :: ext, ?_⟩
      simp only [saveAnomalies, h, if_false, Bool.false_eq_true]
      rw [hext]
      simp

lemma saveAnomalies_matches_after (as : List DetectedAnomaly) :
    ∀ (st : List StoredAnomaly) (a : DetectedAnomaly), a ∈ as →
      hasOpenMatch ((saveAnomalies as st).2) a = true := by
  induction as with
  | nil => intro st a ha; simp at ha
  | cons b rest ih =>
    intro st a ha
    rcases List.mem_cons.mp ha with rfl | ha
    · by_cases h : hasOpenMatch st a = true
      · obtain ⟨ext, hext⟩ := saveAnomalies_store_grows rest st
        simp only [saveAnomalies, h, if_true]
        rw [hext, hasOpenMatch_append, h]
        rfl
      · obtain ⟨ext, hext⟩ := saveAnomalies_store_grows rest (st ++ [⟨a, .OPEN⟩])
        simp only [saveAnomalies, h, if_false, Bool.false_eq_true]
        rw [hext, hasOpenMatch_append, hasOpenMatch_inserted]
        rfl
    · by_cases h : hasOpenMatch st b = true
      · simp only [saveAnomalies, h, if_true]
        exact ih st a ha
      · simp only [saveAnomalies, h, if_false, Bool.false_eq_true]
        exact ih (st ++ [⟨b, .OPEN⟩]) a ha

lemma saveAnomalies_all_matched (as : List DetectedAnomaly) :
    ∀ st : List StoredAnomaly, (∀ a ∈ as, hasOpenMatch st a = true) →
      saveAnomalies as st = (0, st) := by
  induction as with
  | nil => intro st _; rfl
  | cons a rest ih =>
    intro st hall
    have ha : hasOpenMatch st a = true := hall a (by simp)
    simp only [saveAnomalies, ha, if_true]
    exact ih st fun x hx => hall x (by simp [hx])

/-- C6.  The recorder persists a finding (with status OPEN) only when the
store holds no finding with the same (unit, type, affected-period start) and
status OPEN or ACKNOWLEDGED, and returns the count of newly persisted
findings; consequently saving any batch a second time — in particular the
batch produced by running the full five-algorithm detection over unchanged
reading data again — persists zero additional findings. -/
theorem save_anomalies_dedup_idempotent :
    (∀ (a : DetectedAnomaly) (st : List StoredAnomaly),
      saveAnomalies [a] st =
        if hasOpenMatch st a then (0, st) else (1, st ++ [⟨a, .OPEN⟩])) ∧
    (∀ (as : List DetectedAnomaly) (st : List StoredAnomaly),
      (saveAnomalies as ((saveAnomalies as st).2)).1 = 0) ∧
    (∀ (uid : String) (capacity : Option ℚ)
        (fetch : Except String (List DetectionRecord)) (st : List StoredAnomaly),
      (saveAnomalies (detectAnomalies uid capacity fetch)
          ((saveAnomalies (detectAnomalies uid capacity fetch) st).2)).1 = 0) := by
  have hsecond : ∀ (as : List DetectedAnomaly) (st : List StoredAnomaly),
      (saveAnomalies as ((saveAnomalies as st).2)).1 = 0 := by
    intro as st
    rw [saveAnomalies_all_matched as ((saveAnomalies as st).2)
      (fun a ha => saveAnomalies_matches_after as st a ha)]
  refine ⟨?_, hsecond, fun uid cap fetch st => hsecond _ st⟩
  intro a st
  by_cases h : hasOpenMatch st a = true
  · simp [saveAnomalies, h]
  · simp [saveAnomalies, h]

end Zolar

namespace Zolar

/-- A solar-unit document as the orchestrator uses it (identifier and
nameplate capacity of an ACTIVE unit). -/
structure SolarUnitDoc where
  uid : String
  capacity : ℚ
deriving DecidableEq

/-- The aggregate returned by `runAnomalyDetectionForAllUnits`. -/
structure DetectionRunSummary where
  unitsProcessed : ℕ
  anomaliesDetected : ℕ
  anomaliesSaved : ℕ
deriving DecidableEq

/-- The per-unit loop of the orchestrator: detect, record, accumulate
(detected, saved) while threading the Anomaly store. -/
def runUnitsGo (fetch : String → Except String (List DetectionRecord)) :
    List SolarUnitDoc → List StoredAnomaly → (ℕ × ℕ) × List StoredAnomaly
  | [], store => ((0, 0), store)
  | u :: rest, store =>
    let anomalies := detectAnomalies u.uid (some u.capacity) (fetch u.uid)
    let saved := saveAnomalies anomalies store
    let next := runUnitsGo fetch rest saved.2
    ((anomalies.length + next.1.1, saved.1 + next.1.2), next.2)

/-- `runAnomalyDetectionForAllUnits` over the ACTIVE units: the per-unit
store read may fail (`fetch` returns `.error`), which each algorithm's
`catch` turns into an empty contribution for that unit only; the aggregate
reports all units as processed. -/
def runAnomalyDetectionForAllUnits (units : List SolarUnitDoc)
    (fetch : String → Except String (List DetectionRecord))
    (store : List StoredAnomaly) : DetectionRunSummary × List StoredAnomaly :=
  let res := runUnitsGo fetch units store
  ({ unitsProcessed := units.length
     anomaliesDetected := res.1.1
     anomaliesSaved := res.1.2 }, res.2)

/-- C7.  Per-unit failure isolation: with three active units where only unit
B's store read throws, the orchestrator still returns an aggregate — B's
scan contributes nothing, and the detected and saved counts and the final
store are exactly those of a run over A and C alone, with A's and C's
findings both included; no exception escapes the orchestrator (the run is a
total function of its inputs). -/
theorem run_all_units_isolates_unit_failure
    (A B C : SolarUnitDoc) (fetch : String → Except String (List DetectionRecord))
    (store : List StoredAnomaly) (e : String) (hB : fetch B.uid = .error e) :
    (runAnomalyDetectionForAllUnits [A, B, C] fetch store).1.unitsProcessed = 3 ∧
    (runAnomalyDetectionForAllUnits [A, B, C] fetch store).1.anomaliesDetected =
      (runAnomalyDetectionForAllUnits [A, C] fetch store).1.anomaliesDetected ∧
    (runAnomalyDetectionForAllUnits [A, B, C] fetch store).1.anomaliesSaved =
      (runAnomalyDetectionForAllUnits [A, C] fetch store).1.anomaliesSaved ∧
    (runAnomalyDetectionForAllUnits [A, B, C] fetch store).2 =
      (runAnomalyDetectionForAllUnits [A, C] fetch store).2 ∧
    (runAnomalyDetectionForAllUnits [A, B, C] fetch store).1.anomaliesDetected =
      (detectAnomalies A.uid (some A.capacity) (fetch A.uid)).length +
      (detectAnomalies C.uid (some C.capacity) (fetch C.uid)).length := by
  have hBdet : detectAnomalies B.uid (some B.capacity) (fetch B.uid) = [] := by
    rw [hB]; rfl
  refine ⟨rfl, ?_, ?_, ?_, ?_⟩ <;>
    simp [runAnomalyDetectionForAllUnits, runUnitsGo, hBdet, saveAnomalies]

/-- Witness for C7: a concrete run over units "A", "B", "C" where only B's
read throws; A's and C's windows each hold one nighttime reading so each
contributes findings, and the aggregate reflects both. -/
theorem run_all_units_isolates_unit_failure_witness :
    (runAnomalyDetectionForAllUnits
        [⟨"A", 1000⟩, ⟨"B", 1000⟩, ⟨"C", 1000⟩]
        (fun u => if u = "B" then .error "read failed"
          else .ok [{ recId := "r", timestamp := 0, energyGenerated := 50 }])
        []).1.unitsProcessed = 3 := by
  exact (run_all_units_isolates_unit_failure ⟨"A", 1000⟩ ⟨"B", 1000⟩ ⟨"C", 1000⟩
    (fun u => if u = "B" then .error "read failed"
      else .ok [{ recId := "r", timestamp := 0, energyGenerated := 50 }])
    [] "read failed" (by simp)).1

end Zolar

namespace Zolar

/-- One energy record as the analytics query projects it
(`LeanEnergyRecord` in the source): both energy aliases and the weather
snapshot fields are optional. -/
structure AnalyticsRecord where
  timestamp : ℤ
  energy : Option ℚ := none
  energyGenerated : Option ℚ := none
  cloudCover : Option ℚ := none
  precipitation : Option ℚ := none
  temperature : Option ℚ := none
  solarIrradiance : Option ℚ := none
  windSpeed : Option ℚ := none
deriving DecidableEq

/-- `calculateSolarImpact` of `src/application/weather.ts` (score part;
the returned breakdown lists the same deltas and is not modelled): start at
100, apply cloud/precipitation/irradiance/temperature/wind adjustments,
clamp to [0, 100]. -/
def calculateSolarImpact
    (cloudCover precipitation solarIrradiance temperature windSpeed : ℚ) : ℚ :=
  let s1 : ℚ :=
    if 0 ≤ cloudCover ∧ cloudCover ≤ 20 then 100
    else if cloudCover ≤ 50 then 100 - 20
    else if cloudCover ≤ 80 then 100 - 40
    else 100 - 60
  let s2 := if 0 < precipitation then s1 - 30 else s1
  let s3 :=
    if 800 < solarIrradiance then s2 + 20
    else if 600 ≤ solarIrradiance then s2 + 10
    else s2
  let s4 := if 35 < temperature then s3 - 10 else s3
  let s5 := if 15 < windSpeed then s4 + 5 else s4
  max 0 (min 100 s5)

/-- `calculateExpectedEnergy`:
`round2(capacityKw × 5.5 × (weatherScore / 100))` (kWh). -/
def calculateExpectedEnergy (capacityKw weatherScore : ℚ) : ℚ :=
  round2 (capacityKw * 5.5 * (weatherScore / 100))

/-- The energy contribution of one record to its day bucket:
`record.energy ?? record.energyGenerated ?? 0` (nullish coalescing). -/
def recordEnergy (r : AnalyticsRecord) : ℚ :=
  match r.energy with
  | some e => e
  | none => r.energyGenerated.getD 0

/-- A day bucket's `actualEnergy`: the plain sum of the day's record energy
values (no unit conversion). -/
def daySumEnergy (rs : List AnalyticsRecord) : ℚ := (rs.map recordEnergy).sum

/-- `totalX` accumulation of `getWeatherAdjustedPerformance`: sum of the
values of an optional field that are present. -/
def sumOpt (f : AnalyticsRecord → Option ℚ) (rs : List AnalyticsRecord) : ℚ :=
  (rs.map (fun r => (f r).getD 0)).sum

/-- An `avgX` of `getWeatherAdjustedPerformance`: the field total divided by
`count` — which the source increments once per *record* (not per present
value) — with the documented default only when the bucket is empty. -/
def dayAvg (total : ℚ) (count : ℕ) (dflt : ℚ) : ℚ :=
  if 0 < count then total / count else dflt

def dayAvgCloudCover (rs : List AnalyticsRecord) : ℚ :=
  dayAvg (sumOpt (·.cloudCover) rs) rs.length 50

def dayAvgPrecipitation (rs : List AnalyticsRecord) : ℚ :=
  dayAvg (sumOpt (·.precipitation) rs) rs.length 0

def dayAvgTemperature (rs : List AnalyticsRecord) : ℚ :=
  dayAvg (sumOpt (·.temperature) rs) rs.length 25

def dayAvgIrradiance (rs : List AnalyticsRecord) : ℚ :=
  dayAvg (sumOpt (·.solarIrradiance) rs) rs.length 500

def dayAvgWindSpeed (rs : List AnalyticsRecord) : ℚ :=
  dayAvg (sumOpt (·.windSpeed) rs) rs.length 10

/-- The day's weather score: `calculateSolarImpact` on the day's averaged
weather fields (argument order as in the source call). -/
def dayWeatherScore (rs : List AnalyticsRecord) : ℚ :=
  calculateSolarImpact (dayAvgCloudCover rs) (dayAvgPrecipitation rs)
    (dayAvgIrradiance rs) (dayAvgTemperature rs) (dayAvgWindSpeed rs)

/-- One entry of `dailyData` (the reported, rounded fields). -/
structure DailyPerformanceData where
  day : ℤ
  actualEnergy : ℚ
  expectedEnergy : ℚ
  performanceRatio : ℤ
  weatherScore : ℤ
  cloudCover : ℤ
  precipitation : ℚ
  temperature : ℚ
deriving DecidableEq

/-- The per-day body of `getWeatherAdjustedPerformance`: weather averages,
weather score, expected energy from `capacity / 1000` kW, performance ratio
`round(actual / expected × 100)` (0 when expected is not positive). -/
def processDay (capacity : ℚ) (day : ℤ) (records : List AnalyticsRecord) :
    DailyPerformanceData :=
  let expectedEnergy := calculateExpectedEnergy (capacity / 1000) (dayWeatherScore records)
  { day := day
    actualEnergy := round2 (daySumEnergy records)
    expectedEnergy := expectedEnergy
    performanceRatio :=
      if 0 < expectedEnergy then jsRound ((daySumEnergy records / expectedEnergy) * 100)
      else 0
    weatherScore := jsRound (dayWeatherScore records)
    cloudCover := jsRound (dayAvgCloudCover records)
    precipitation := round1 (dayAvgPrecipitation records)
    temperature := round1 (dayAvgTemperature records) }

/-- Ascending insertion into a sorted list of day keys. -/
def insertAsc (x : ℤ) : List ℤ → List ℤ
  | [] => [x]
  | y :: ys => if x ≤ y then x :: y :: ys else y :: insertAsc x ys

/-- Ascending sort of day keys (the final `dailyData.sort` by ISO date). -/
def sortAsc (l : List ℤ) : List ℤ := l.foldr insertAsc []

/-- The distinct day keys of a record list, ascending. -/
def dayKeysSorted (rs : List AnalyticsRecord) : List ℤ :=
  sortAsc ((rs.map (fun r => dateKey r.timestamp)).dedup)

/-- The records falling in a given day bucket. -/
def dayRecords (rs : List AnalyticsRecord) (d : ℤ) : List AnalyticsRecord :=
  rs.filter (fun r => decide (dateKey r.timestamp = d))

/-- `dailyData` of `getWeatherAdjustedPerformance`: one processed entry per
day bucket, sorted by date. -/
def weatherAdjustedDaily (capacity : ℚ) (rs : List AnalyticsRecord) :
    List DailyPerformanceData :=
  (dayKeysSorted rs).map (fun d => processDay capacity d (dayRecords rs d))

/-- `summary.avgPerformanceRatio`: `round(Σ ratio / #days)`, 0 with no
days. -/
def avgPerformanceRatio (daily : List DailyPerformanceData) : ℤ :=
  if daily.length = 0 then 0
  else jsRound ((daily.map (fun d => (d.performanceRatio : ℚ))).sum / daily.length)

end Zolar

namespace Zolar

/-- An anomaly document as `getSystemHealth` projects it (`LeanAnomaly`
fields actually used: severity, status, detection and resolution times). -/
structure HealthAnomaly where
  severity : AnomalySeverity
  status : AnomalyStatus
  detectedAt : ℤ
  resolvedAt : Option ℤ := none
deriving DecidableEq

inductive HealthRating where
  | Excellent
  | Good
  | Fair
  | Poor
deriving DecidableEq

def criticalCountOf (anomalies : List HealthAnomaly) : ℕ :=
  (anomalies.filter (fun a => decide (a.severity = .CRITICAL))).length

def warningCountOf (anomalies : List HealthAnomaly) : ℕ :=
  (anomalies.filter (fun a => decide (a.severity = .WARNING))).length

/-- Factor 1: `anomalyScore = max(0, 100 − 10·critical − 5·warning)`. -/
def anomalyScoreOf (anomalies : List HealthAnomaly) : ℚ :=
  max 0 (100 - (criticalCountOf anomalies : ℚ) * 10 - (warningCountOf anomalies : ℚ) * 5)

/-- Factor 2: the average weather-adjusted performance ratio.  (The source's
`catch → 75` fallback is unreachable here: the unit was already found and
the inner call performs the same lookup.) -/
def performanceScoreOf (capacity : ℚ) (records : List AnalyticsRecord) : ℚ :=
  (avgPerformanceRatio (weatherAdjustedDaily capacity records) : ℚ)

/-- The number of distinct UTC dates carrying a CRITICAL anomaly. -/
def daysWithCriticalOf (anomalies : List HealthAnomaly) : ℕ :=
  (((anomalies.filter (fun a => decide (a.severity = .CRITICAL))).map
      (fun a => dateKey a.detectedAt)).dedup).length

/-- Factor 3: `uptimePercentage = ((days − daysWithCritical) / days) × 100`. -/
def uptimePercentageOf (days : ℤ) (anomalies : List HealthAnomaly) : ℚ :=
  (((days : ℚ) - (daysWithCriticalOf anomalies : ℚ)) / (days : ℚ)) * 100

/-- Mean resolution time in hours over RESOLVED anomalies (0 when there are
none; an absent `resolvedAt` contributes 0 to the sum but counts in the
mean's denominator, as in the source). -/
def avgResolutionTimeOf (anomalies : List HealthAnomaly) : ℚ :=
  let resolved := anomalies.filter (fun a => decide (a.status = .RESOLVED))
  if resolved.length = 0 then 0
  else ((resolved.map (fun a =>
      match a.resolvedAt with
      | some t => ((t - a.detectedAt : ℤ) : ℚ)
      | none => 0)).sum) / (resolved.length : ℚ) / 3600000

/-- Factor 4: 100 when the mean resolution time is 0, else
`max(0, 100 − (avg/24)·10)`. -/
def resolutionScoreOf (anomalies : List HealthAnomaly) : ℚ :=
  if avgResolutionTimeOf anomalies = 0 then 100
  else max 0 (100 - (avgResolutionTimeOf anomalies / 24) * 10)

/-- The source's rating bands on the rounded health score. -/
def ratingOf (healthScore : ℤ) : HealthRating :=
  if 85 ≤ healthScore then .Excellent
  else if 70 ≤ healthScore then .Good
  else if 50 ≤ healthScore then .Fair
  else .Poor

/-- The result of `getSystemHealth` (recommendation strings are not
modelled; `factors` are the four rounded factor scores). -/
structure SystemHealthResponse where
  healthScore : ℤ
  rating : HealthRating
  anomalyImpact : ℤ
  performanceImpact : ℤ
  uptimeImpact : ℤ
  resolutionEfficiency : ℤ
deriving DecidableEq

/-- `getSystemHealth` on the unit's window: anomalies in range, the unit's
capacity and energy records (for the performance factor), and the window
length in days.  `healthScore = round(0.3·anomaly + 0.4·performance +
0.2·uptime + 0.1·resolution)` — the source applies no clamping to the
result. -/
def getSystemHealth (days : ℤ) (capacity : ℚ) (records : List AnalyticsRecord)
    (anomalies : List HealthAnomaly) : SystemHealthResponse :=
  let anomalyScore := anomalyScoreOf anomalies
  let performanceScore := performanceScoreOf capacity records
  let uptimePercentage := uptimePercentageOf days anomalies
  let resolutionScore := resolutionScoreOf anomalies
  let healthScore := jsRound (anomalyScore * 0.3 + performanceScore * 0.4 +
    uptimePercentage * 0.2 + resolutionScore * 0.1)
  { healthScore := healthScore
    rating := ratingOf healthScore
    anomalyImpact := jsRound anomalyScore
    performanceImpact := jsRound performanceScore
    uptimeImpact := jsRound uptimePercentage
    resolutionEfficiency := jsRound resolutionScore }

end Zolar

namespace Zolar

lemma jsRound_nonneg {q : ℚ} (h : 0 ≤ q) : 0 ≤ jsRound q := by
  rw [jsRound]
  exact Int.le_floor.mpr (by push_cast; linarith)

lemma jsRound_le {q : ℚ} {n : ℤ} (h : q ≤ (n : ℚ)) : jsRound q ≤ n := by
  rw [jsRound]
  calc ⌊q + 1/2⌋ ≤ ⌊(n : ℚ) + 1/2⌋ := Int.floor_le_floor (by linarith)
  _ = n := by rw [Int.floor_int_add]; norm_num

lemma ratingOf_excellent_iff (n : ℤ) : ratingOf n = .Excellent ↔ 85 ≤ n := by
  unfold ratingOf
  split_ifs with h1 h2 h3 <;> simp <;> omega

lemma ratingOf_good_iff (n : ℤ) : ratingOf n = .Good ↔ 70 ≤ n ∧ n < 85 := by
  unfold ratingOf
  split_ifs with h1 h2 h3 <;> simp <;> omega

lemma ratingOf_fair_iff (n : ℤ) : ratingOf n = .Fair ↔ 50 ≤ n ∧ n < 70 := by
  unfold ratingOf
  split_ifs with h1 h2 h3 <;> simp <;> omega

lemma ratingOf_poor_iff (n : ℤ) : ratingOf n = .Poor ↔ n < 50 := by
  unfold ratingOf
  split_ifs with h1 h2 h3 <;> simp <;> omega

/-- C8.  Per day bucket: `expectedEnergy` is `capacity(kW) × 5.5 ×
(weatherScore/100)` rounded to 2 decimals, and `performanceRatio` is
`round(actual/expected × 100)` when the expected energy is positive and 0
otherwise; in particular a 5000 W unit on a day with weather score 100 gets
expectedEnergy 27.5 (kWh), and a day whose actual energy value is 20.625
then gets performanceRatio 75. -/
theorem daily_expected_energy_and_ratio :
    (∀ (capacity : ℚ) (day : ℤ) (rs : List AnalyticsRecord),
      (processDay capacity day rs).expectedEnergy =
        calculateExpectedEnergy (capacity / 1000) (dayWeatherScore rs) ∧
      (processDay capacity day rs).performanceRatio =
        (if 0 < calculateExpectedEnergy (capacity / 1000) (dayWeatherScore rs) then
          jsRound ((daySumEnergy rs /
            calculateExpectedEnergy (capacity / 1000) (dayWeatherScore rs)) * 100)
         else 0)) ∧
    (∀ capacityKw weatherScore : ℚ,
      calculateExpectedEnergy capacityKw weatherScore =
        round2 (capacityKw * 5.5 * (weatherScore / 100))) ∧
    calculateExpectedEnergy 5 100 = 27.5 ∧
    (processDay 5000 0 [{ timestamp := 43200000, energy := some 20.625 }]).weatherScore = 100 ∧
    (processDay 5000 0 [{ timestamp := 43200000, energy := some 20.625 }]).expectedEnergy = 27.5 ∧
    (processDay 5000 0 [{ timestamp := 43200000, energy := some 20.625 }]).performanceRatio = 75 := by
  refine ⟨fun capacity day rs => ⟨rfl, rfl⟩, fun ck ws => rfl, ?_, ?_, ?_, ?_⟩ <;>
    norm_num [processDay, calculateExpectedEnergy, round2, jsRound, daySumEnergy, recordEnergy,
      dayWeatherScore, dayAvgCloudCover, dayAvgPrecipitation, dayAvgIrradiance,
      dayAvgTemperature, dayAvgWindSpeed, dayAvg, sumOpt, calculateSolarImpact]

/-- C9.  A day's `actualEnergy` is the plain (2-decimal-rounded) sum of the
day's record energy values with no unit conversion, while `expectedEnergy`
is computed in kWh from `capacity / 1000`; for records whose energy is
stored in Wh the ratio therefore divides Wh by kWh: a single 27500 Wh
(= 27.5 kWh) reading on a 5000 W unit with weather score 100 yields
expectedEnergy 27.5 and performanceRatio 100000 rather than 100. -/
theorem performance_ratio_divides_wh_by_kwh :
    (∀ (capacity : ℚ) (day : ℤ) (rs : List AnalyticsRecord),
      (processDay capacity day rs).actualEnergy = round2 (daySumEnergy rs) ∧
      daySumEnergy rs = (rs.map recordEnergy).sum) ∧
    (∀ (t : ℤ) (e : ℚ), recordEnergy { timestamp := t, energyGenerated := some e } = e) ∧
    (processDay 5000 0
        [{ timestamp := 43200000, energyGenerated := some 27500 }]).expectedEnergy = 27.5 ∧
    (processDay 5000 0
        [{ timestamp := 43200000, energyGenerated := some 27500 }]).performanceRatio = 100000 := by
  refine ⟨fun capacity day rs => ⟨rfl, rfl⟩, fun t e => rfl, ?_, ?_⟩ <;>
    norm_num [processDay, calculateExpectedEnergy, round2, jsRound, daySumEnergy, recordEnergy,
      dayWeatherScore, dayAvgCloudCover, dayAvgPrecipitation, dayAvgIrradiance,
      dayAvgTemperature, dayAvgWindSpeed, dayAvg, sumOpt, calculateSolarImpact]

/-- C2 (failing input).  The per-day weather means divide each field's sum
of available values by the day's total record count, not by the number of
available values, and the documented defaults are unreachable for non-empty
buckets: a day with two readings of which one carries cloudCover 80 and
neither carries a temperature averages cloud cover to 40 (the claim's
per-available-value mean is 80) and temperature to 0 (the claim's default is
25). -/
theorem weather_day_average_uses_record_count :
    dayAvgCloudCover
        [{ timestamp := 0, cloudCover := some 80 }, { timestamp := 7200000 }] = 40 ∧
    dayAvgTemperature
        [{ timestamp := 0, cloudCover := some 80 }, { timestamp := 7200000 }] = 0 ∧
    (processDay 5000 0
        [{ timestamp := 0, cloudCover := some 80 }, { timestamp := 7200000 }]).cloudCover = 40 ∧
    (processDay 5000 0
        [{ timestamp := 0, cloudCover := some 80 }, { timestamp := 7200000 }]).temperature = 0 := by
  refine ⟨?_, ?_, ?_, ?_⟩ <;>
    norm_num [processDay, round1, jsRound, dayAvgCloudCover, dayAvgTemperature, dayAvg, sumOpt]

end Zolar

namespace Zolar

/-- C1 (counterexample).  The health score is not clamped to [0, 100]: a
7-day window over a 5000 W unit with no anomalies and a single 27500-energy
reading (performance factor 100000) yields healthScore 40060 > 100. -/
theorem system_health_score_not_clamped :
    (getSystemHealth 7 5000
        [{ timestamp := 43200000, energyGenerated := some 27500 }] []).healthScore = 40060 ∧
    100 < (getSystemHealth 7 5000
        [{ timestamp := 43200000, energyGenerated := some 27500 }] []).healthScore := by
  have h : (getSystemHealth 7 5000
      [{ timestamp := 43200000, energyGenerated := some 27500 }] []).healthScore = 40060 := by
    norm_num [getSystemHealth, anomalyScoreOf, criticalCountOf, warningCountOf,
      uptimePercentageOf, daysWithCriticalOf, avgResolutionTimeOf, resolutionScoreOf,
      List.filter, List.dedup,
      performanceScoreOf, avgPerformanceRatio, weatherAdjustedDaily, dayKeysSorted,
      sortAsc, insertAsc, dateKey, dayRecords,
      processDay, calculateExpectedEnergy, round2, jsRound, daySumEnergy, recordEnergy,
      dayWeatherScore, dayAvgCloudCover, dayAvgPrecipitation, dayAvgIrradiance,
      dayAvgTemperature, dayAvgWindSpeed, dayAvg, sumOpt, calculateSolarImpact]
  exact ⟨h, by rw [h]; norm_num⟩

/-- C1 (amended).  `healthScore = round(0.3·anomalyScore +
0.4·performanceScore + 0.2·uptimePercentage + 0.1·resolutionScore)` and the
rating bands hold exactly as documented (≥85 Excellent, [70,85) Good,
[50,70) Fair, else Poor); the score lies in [0, 100] whenever the
performance factor and the uptime percentage lie in [0, 100] and the mean
resolution time is nonnegative — the code applies no clamping, so a
performance ratio above 100 pushes the score above 100. -/
theorem system_health_formula_rating_and_conditional_bound
    (days : ℤ) (capacity : ℚ) (records : List AnalyticsRecord)
    (anomalies : List HealthAnomaly) :
    (getSystemHealth days capacity records anomalies).healthScore =
      jsRound (anomalyScoreOf anomalies * 0.3 + performanceScoreOf capacity records * 0.4 +
        uptimePercentageOf days anomalies * 0.2 + resolutionScoreOf anomalies * 0.1) ∧
    ((getSystemHealth days capacity records anomalies).rating = .Excellent ↔
      85 ≤ (getSystemHealth days capacity records anomalies).healthScore) ∧
    ((getSystemHealth days capacity records anomalies).rating = .Good ↔
      70 ≤ (getSystemHealth days capacity records anomalies).healthScore ∧
        (getSystemHealth days capacity records anomalies).healthScore < 85) ∧
    ((getSystemHealth days capacity records anomalies).rating = .Fair ↔
      50 ≤ (getSystemHealth days capacity records anomalies).healthScore ∧
        (getSystemHealth days capacity records anomalies).healthScore < 70) ∧
    ((getSystemHealth days capacity records anomalies).rating = .Poor ↔
      (getSystemHealth days capacity records anomalies).healthScore < 50) ∧
    (0 ≤ performanceScoreOf capacity records →
      performanceScoreOf capacity records ≤ 100 →
      0 ≤ uptimePercentageOf days anomalies →
      uptimePercentageOf days anomalies ≤ 100 →
      0 ≤ avgResolutionTimeOf anomalies →
      0 ≤ (getSystemHealth days capacity records anomalies).healthScore ∧
        (getSystemHealth days capacity records anomalies).healthScore ≤ 100) := by
  refine ⟨rfl, ratingOf_excellent_iff _, ratingOf_good_iff _, ratingOf_fair_iff _,
    ratingOf_poor_iff _, ?_⟩
  intro hp0 hp100 hu0 hu100 hres
  have hA0 : 0 ≤ anomalyScoreOf anomalies := le_max_left 0 _
  have hA100 : anomalyScoreOf anomalies ≤ 100 := by
    refine max_le (by norm_num) ?_
    have hc : (0 : ℚ) ≤ (criticalCountOf anomalies : ℚ) := Nat.cast_nonneg _
    have hw : (0 : ℚ) ≤ (warningCountOf anomalies : ℚ) := Nat.cast_nonneg _
    linarith
  have hR0 : 0 ≤ resolutionScoreOf anomalies := by
    unfold resolutionScoreOf
    split_ifs with h
    · norm_num
    · exact le_max_left 0 _
  have hR100 : resolutionScoreOf anomalies ≤ 100 := by
    unfold resolutionScoreOf
    split_ifs with h
    · norm_num
    · refine max_le (by norm_num) ?_
      have : 0 ≤ (avgResolutionTimeOf anomalies / 24) * 10 := by positivity
      linarith
  constructor
  · apply jsRound_nonneg
    linarith
  · apply jsRound_le
    push_cast
    linarith

/-- Witness for the amended C1: on a 7-day window with no records and no
anomalies the hypotheses hold (performance 0, uptime 100, mean resolution
time 0) and the health score lies in [0, 100]. -/
theorem system_health_conditional_bound_witness :
    0 ≤ (getSystemHealth 7 5000 [] []).healthScore ∧
      (getSystemHealth 7 5000 [] []).healthScore ≤ 100 := by
  refine (system_health_formula_rating_and_conditional_bound 7 5000 [] []).2.2.2.2.2
    ?_ ?_ ?_ ?_ ?_ <;>
    norm_num [performanceScoreOf, avgPerformanceRatio, weatherAdjustedDaily, dayKeysSorted,
      sortAsc, List.dedup, uptimePercentageOf, daysWithCriticalOf, avgResolutionTimeOf,
      List.filter]

end Zolar
